import Mathlib

/-!
Shallow embedding of the Crypto Trading Dashboard's Groq client and chat
route, together with proofs of the spec's testable properties.

Source layout:
* `src/unnamed/part_000` — the Groq transport client (`classifyHttpError`,
  `fetchWithTimeout`, `createGroqChatCompletion`) and the request
  orchestrator (`generateGroqResponse`).
* `src/app/api/chat/route.ts` — the inbound HTTP boundary (`POST`).

JavaScript values are embedded as follows: JSON values become the `Json`
inductive; `undefined`/`null` results of optional chaining become `Option`;
thrown exceptions become `Except`; the network (`fetch`) is an injected
oracle `Nat → FetchOutcome` giving the outcome of each attempt; elapsed
time is not modelled, but every `sleep(ms)` and every upstream call is
recorded in an event trace so that retry counts and backoff durations are
observable.
-/

namespace Groq

/-- A JSON value, as produced by `res.json()`. -/
inductive Json where
  | null
  | bool (b : Bool)
  | num (n : Int)
  | str (s : String)
  | arr (items : List Json)
  | obj (fields : List (String × Json))

/-- `GroqChatRole` from part_000 line 1. -/
inductive GroqChatRole where
  | system
  | user
  | assistant
deriving DecidableEq

/-- `GroqChatMessage` from part_000 lines 3-6. -/
structure GroqChatMessage where
  role : GroqChatRole
  content : String

/-- `GroqChatCompletionRequest` from part_000 lines 8-15.  `temperature` and
`top_p` are small integer constants (0 and 1) at the only call site, so they
are embedded as `Nat`. -/
structure CompletionRequest where
  model : String
  messages : List GroqChatMessage
  temperature : Nat
  top_p : Nat
  max_tokens : Nat
  stream : Bool

/-- `GroqErrorType` from part_000 lines 39-46. -/
inductive GroqErrorType where
  | CONFIG
  | TIMEOUT
  | NETWORK
  | RATE_LIMIT
  | UPSTREAM
  | INVALID_RESPONSE
  | UNKNOWN
deriving DecidableEq

/-- `GroqError` from part_000 lines 48-68: the classified error carrying a
kind discriminant, an optional HTTP status, the retriable flag and optional
diagnostic details. -/
structure GroqError where
  type : GroqErrorType
  message : String
  status : Option Nat := none
  retriable : Bool
  details : Option Json := none

/-- `GROQ_MODEL` constant, part_000 line 71. -/
def GROQ_MODEL : String := "llama3-70b-8192"

/-- `DEFAULT_TIMEOUT_MS`, part_000 line 73. -/
def DEFAULT_TIMEOUT_MS : Nat := 12000

/-- `DEFAULT_MAX_RETRIES`, part_000 line 74. -/
def DEFAULT_MAX_RETRIES : Nat := 2

/-- `RETRY_BACKOFF_MS`, part_000 line 75. -/
def RETRY_BACKOFF_MS : List Nat := [250, 500, 1000]

/-- The backoff duration slept after failed attempt `attempt`:
`RETRY_BACKOFF_MS[Math.min(attempt, RETRY_BACKOFF_MS.length - 1)]`
(part_000 lines 207 and 232). -/
def backoffMs (attempt : Nat) : Nat :=
  RETRY_BACKOFF_MS.getD (min attempt (RETRY_BACKOFF_MS.length - 1)) 0

/-- The `CONFIG` error thrown by `getApiKey` (part_000 lines 81-91) when
`process.env.GROQ_API_KEY` is unset. -/
def configMissingError : GroqError :=
  { type := .CONFIG
  , message := "GROQ_API_KEY is not configured"
  , retriable := false }

/-- The `TIMEOUT` error thrown by `fetchWithTimeout` (part_000 lines
104-110) when the abort controller fires. -/
def timeoutError (timeoutMs : Nat) : GroqError :=
  { type := .TIMEOUT
  , message := "Groq request timed out after " ++ toString timeoutMs ++ "ms"
  , retriable := true }

/-- The `NETWORK` error thrown by `fetchWithTimeout` (part_000 lines
112-116) for any non-abort transport failure; `msg` is the underlying
exception's message. -/
def networkError (msg : String) : GroqError :=
  { type := .NETWORK
  , message := msg
  , retriable := true }

/-- `classifyHttpError` from part_000 lines 122-160: maps a non-success
HTTP status and the best-effort parsed diagnostic body to a classified
error. -/
def classifyHttpError (status : Nat) (details : Option Json) : GroqError :=
  if status = 401 ∨ status = 403 then
    { type := .CONFIG
    , status := some status
    , message := "Groq authentication failed (check GROQ_API_KEY)"
    , retriable := false
    , details := details }
  else if status = 429 then
    { type := .RATE_LIMIT
    , status := some status
    , message := "Groq rate limit reached"
    , retriable := true
    , details := details }
  else if 500 ≤ status ∧ status ≤ 599 then
    { type := .UPSTREAM
    , status := some status
    , message := "Groq upstream error (" ++ toString status ++ ")"
    , retriable := true
    , details := details }
  else
    { type := .UPSTREAM
    , status := some status
    , message := "Groq request failed (" ++ toString status ++ ")"
    , retriable := false
    , details := details }

/-- The `INVALID_RESPONSE` error thrown by `createGroqChatCompletion`
(part_000 lines 219-224) when the success body lacks a `choices` array. -/
def invalidShapeError (data : Json) : GroqError :=
  { type := .INVALID_RESPONSE
  , message := "Invalid response shape from Groq"
  , retriable := false
  , details := some data }

/-- The `UNKNOWN` wrapper thrown at part_000 lines 242-247 when the loop
exits with a non-`GroqError` exception; `msg` is that exception's message. -/
def unknownError (msg : String) : GroqError :=
  { type := .UNKNOWN
  , message := msg
  , retriable := false }

/-- The `INVALID_RESPONSE` error thrown by `generateGroqResponse`
(part_000 lines 266-273) on an absent or empty answer. -/
def emptyResponseError (completion : Json) : GroqError :=
  { type := .INVALID_RESPONSE
  , message := "Groq returned an empty response"
  , retriable := false
  , details := some completion }

/-- The outcome of one `fetchWithTimeout` call, injected per attempt:
either an HTTP response arrived (with its status and the result of parsing
its body — `.error msg` when `res.json()` rejects with an exception whose
message is `msg`), or the deadline fired (`AbortError`), or some other
transport failure occurred. -/
inductive FetchOutcome where
  | response (status : Nat) (body : Except String Json)
  | timedOut
  | netFailure (msg : String)

/-- `res.ok` for a fetch `Response`: status in the 200-299 success range. -/
def resOk (status : Nat) : Bool :=
  decide (200 ≤ status ∧ status ≤ 299)

/-- First value bound to key `name` in a JSON object's field list. -/
def lookupField (fields : List (String × Json)) (name : String) : Option Json :=
  match fields with
  | [] => none
  | (k, v) :: rest => if k = name then some v else lookupField rest name

/-- The response-shape guard of part_000 lines 213-218:
`data` truthy, of object type, with a `choices` property that is an array. -/
def hasValidShape (data : Json) : Bool :=
  match data with
  | .obj fields =>
    match lookupField fields "choices" with
    | some (.arr _) => true
    | _ => false
  | _ => false

/-- Observable events of one `createGroqChatCompletion` run, in
chronological order: each upstream call (with its 0-based attempt index)
and each backoff sleep (with its duration in ms). -/
inductive Event where
  | call (attempt : Nat)
  | sleepMs (ms : Nat)
deriving DecidableEq

/-- Number of upstream calls recorded in a trace. -/
def countCalls : List Event → Nat
  | [] => 0
  | .call _ :: rest => countCalls rest + 1
  | .sleepMs _ :: rest => countCalls rest

/-- The net effect of one loop iteration's interaction with the network
(part_000 lines 189-227): either a parsed body with a valid shape is
returned, or a `GroqError` is raised (timeout, network, HTTP-status
classification, or invalid shape), or a non-`GroqError` exception escapes
(an `ok` response whose body fails to parse). -/
inductive AttemptResult where
  | ok (data : Json)
  | groqFail (e : GroqError)
  | rawFail (msg : String)

/-- One attempt of the retry loop, part_000 lines 189-227.  A non-ok
status is classified via `classifyHttpError` with the best-effort details
(`await res.json().catch(() => null)`); an ok status parses the body
(a parse failure is a plain exception, not a `GroqError`) and checks its
shape. -/
def runAttempt (timeoutMs : Nat) (outcome : FetchOutcome) : AttemptResult :=
  match outcome with
  | .timedOut => .groqFail (timeoutError timeoutMs)
  | .netFailure m => .groqFail (networkError m)
  | .response status body =>
    if resOk status then
      match body with
      | .error m => .rawFail m
      | .ok data =>
        if hasValidShape data then .ok data else .groqFail (invalidShapeError data)
    else
      .groqFail (classifyHttpError status body.toOption)

/-- The retry loop of part_000 lines 187-247, structured on the number of
retries still available: `remaining` retries are left, so the current
attempt index is `maxRetries - remaining` and the loop entry point is
`remaining = maxRetries`.  A `GroqError` failure is retried (sleep, then
next attempt) exactly when it is retriable and `remaining > 0`, matching
both retry decision points of the source (lines 205-208 and 229-234); any
other failure, or exhaustion, surfaces the error — a non-`GroqError`
exception is wrapped as `UNKNOWN` (lines 240-247). -/
def groqAttempts (tr : Nat → FetchOutcome) (timeoutMs maxRetries : Nat) :
    Nat → Except GroqError Json × List Event
  | 0 =>
    let attempt := maxRetries
    (match runAttempt timeoutMs (tr attempt) with
     | .ok data => .ok data
     | .groqFail e => .error e
     | .rawFail m => .error (unknownError m),
     [.call attempt])
  | r + 1 =>
    let attempt := maxRetries - (r + 1)
    match runAttempt timeoutMs (tr attempt) with
    | .ok data => (.ok data, [.call attempt])
    | .groqFail e =>
      if e.retriable then
        let rest := groqAttempts tr timeoutMs maxRetries r
        (rest.1, .call attempt :: .sleepMs (backoffMs attempt) :: rest.2)
      else
        (.error e, [.call attempt])
    | .rawFail m => (.error (unknownError m), [.call attempt])

/-- `createGroqChatCompletion`, part_000 lines 162-248.  The request body
is built once and the identical body is sent on every attempt, so the
injected transport oracle depends only on the attempt index.  `apiKey`
models `process.env.GROQ_API_KEY` (absent when the variable is unset);
when it is absent `getApiKey` throws before any network activity. -/
def createGroqChatCompletion (_req : CompletionRequest) (apiKey : Option String)
    (timeoutMs maxRetries : Nat) (tr : Nat → FetchOutcome) :
    Except GroqError Json × List Event :=
  match apiKey with
  | none => (.error configMissingError, [])
  | some _ => groqAttempts tr timeoutMs maxRetries maxRetries

/-- The system message of `generateGroqResponse`, part_000 lines 254-257
(the bullet glyph appears mojibake-encoded in the source file and is
reproduced verbatim). -/
def answerSystemPrompt : String :=
  "You are a cryptocurrency trading assistant. Provide clear, concise responses. Do not use asterisks (*). Format lists with bullet points (â€¢)."

/-- The completion request built by `generateGroqResponse`, part_000 lines
251-263 (the model defaults to `GROQ_MODEL` at line 175). -/
def answerRequest (prompt : String) : CompletionRequest :=
  { model := GROQ_MODEL
  , messages := [⟨.system, answerSystemPrompt⟩, ⟨.user, prompt⟩]
  , temperature := 0
  , top_p := 1
  , max_tokens := 1024
  , stream := false }

/-- `completion.choices?.[0]?.message?.content`, part_000 line 265: the
first choice's message content when it is present and a string; `none`
models the `undefined`/`null` results of the optional chain (which the
`?? ""` at the call site turns into the empty string). -/
def extractContent (data : Json) : Option String :=
  match data with
  | .obj fields =>
    match lookupField fields "choices" with
    | some (.arr (first :: _)) =>
      match first with
      | .obj choiceFields =>
        match lookupField choiceFields "message" with
        | some (.obj msgFields) =>
          match lookupField msgFields "content" with
          | some (.str s) => some s
          | _ => none
        | _ => none
      | _ => none
    | _ => none
  | _ => none

/-- JavaScript `String.prototype.trim` on the character list: strip
whitespace from both ends. -/
def trimChars (s : List Char) : List Char :=
  ((s.dropWhile Char.isWhitespace).reverse.dropWhile Char.isWhitespace).reverse

/-- `text.trim()` on a string. -/
def trimString (s : String) : String :=
  String.mk (trimChars s.data)

/-- `generateGroqResponse`, part_000 lines 250-276: run the completion
with the default timeout and retry budget, extract the first choice's
content (`?? ""`), fail with `INVALID_RESPONSE` when the extracted text is
falsy (the empty string), and otherwise return the trimmed text. -/
def generateGroqResponse (apiKey : Option String) (tr : Nat → FetchOutcome)
    (prompt : String) : Except GroqError String × List Event :=
  match createGroqChatCompletion (answerRequest prompt) apiKey
      DEFAULT_TIMEOUT_MS DEFAULT_MAX_RETRIES tr with
  | (.error e, evs) => (.error e, evs)
  | (.ok data, evs) =>
    let text := (extractContent data).getD ""
    if text = "" then
      (.error (emptyResponseError data), evs)
    else
      (.ok (trimString text), evs)

end Groq

namespace ChatRoute

open Groq

/-- The JSON body of a route response: `{response: text}` or
`{error: text}` (route.ts lines 9, 21, 34). -/
inductive ApiBody where
  | response (text : String)
  | error (text : String)
deriving DecidableEq

/-- `replace(/\*\*/g, "")` specialised to its pattern: delete every
non-overlapping `**` left to right (route.ts line 17). -/
def collapseDoubleStar : List Char → List Char
  | [] => []
  | '*' :: '*' :: rest => collapseDoubleStar rest
  | c :: rest => c :: collapseDoubleStar rest

/-- `replace(/\*/g, "•")`: turn every remaining `*` into the bullet glyph
(route.ts line 18). -/
def starToBullet : List Char → List Char
  | [] => []
  | '*' :: rest => '•' :: starToBullet rest
  | c :: rest => c :: starToBullet rest

/-- The route's sanitization pipeline, route.ts lines 16-19. -/
def cleanResponse (s : String) : String :=
  trimString (String.mk (starToBullet (collapseDoubleStar s.data)))

/-- The prompt template of route.ts line 12. -/
def chatPrompt (message : String) : String :=
  "You are a cryptocurrency trading assistant. Help the user with their query about crypto trading, market analysis, and investment strategies. Provide clear, concise responses without using asterisks (*). Format lists with bullet points (•) instead. Here's the user's message: " ++ message

/-- The status chosen for a failure, route.ts lines 25-29: 503 exactly for
the kinds `RATE_LIMIT`, `TIMEOUT` and `UPSTREAM`, otherwise 500. -/
def errorStatus (e : GroqError) : Nat :=
  if e.type = .RATE_LIMIT ∨ e.type = .TIMEOUT ∨ e.type = .UPSTREAM then 503 else 500

/-- `POST`, route.ts lines 4-36, for a request whose JSON body parsed to an
object with optional string field `message`.  The `!message` falsy check
rejects both an absent field and the empty string.  The handler returns
the HTTP status and body; the transport trace is carried through so that
"no upstream call" is observable. -/
def routePOST (message : Option String) (apiKey : Option String)
    (tr : Nat → FetchOutcome) : (Nat × ApiBody) × List Event :=
  match message with
  | none => ((400, .error "Message is required"), [])
  | some m =>
    if m = "" then
      ((400, .error "Message is required"), [])
    else
      match generateGroqResponse apiKey tr (chatPrompt m) with
      | (.ok r, evs) => ((200, .response (cleanResponse r)), evs)
      | (.error e, evs) => ((errorStatus e, .error e.message), evs)

end ChatRoute

open Groq ChatRoute

/-- Checks that a trace starting at attempt index `i` is a well-formed
retry trace: calls carry consecutive attempt indices, every sleep sits
strictly between two calls and lasts exactly the backoff duration of the
attempt that just failed, and the trace never ends in a sleep. -/
def traceOk : Nat → List Event → Bool
  | _, [] => true
  | i, [Event.call j] => j == i
  | i, Event.call j :: Event.sleepMs ms :: Event.call j2 :: rest =>
    j == i && ms == backoffMs i && traceOk (i + 1) (Event.call j2 :: rest)
  | _, _ => false

/-- Modelled from the spec table in §4.1 and §7: the retriable flag as a
pure function of the error kind and HTTP status, to be compared with the
flag each construction site in the code actually sets. -/
def specRetriablePolicy (t : GroqErrorType) (status : Option Nat) : Bool :=
  match t with
  | .CONFIG => false
  | .INVALID_RESPONSE => false
  | .UNKNOWN => false
  | .TIMEOUT => true
  | .NETWORK => true
  | .RATE_LIMIT => true
  | .UPSTREAM =>
    match status with
    | some s => decide (500 ≤ s ∧ s ≤ 599)
    | none => false

/-- A stubbed success body whose first choice's content is the C6 test
string. -/
def bitcoinData : Json :=
  .obj [("choices", .arr
    [.obj [("message", .obj [("content", .str "Bitcoin is *digital* **gold**")])]])]

/-- A stubbed transport answering every attempt with HTTP 200 and
`bitcoinData`. -/
def bitcoinTr : Nat → FetchOutcome := fun _ => .response 200 (.ok bitcoinData)

/-- A stubbed success body whose first choice's content is a single
space: non-empty, but empty after trimming. -/
def wsContentData : Json :=
  .obj [("choices", .arr [.obj [("message", .obj [("content", .str " ")])]])]

/-- A stubbed success body whose first choice's content is the empty
string. -/
def emptyContentData : Json :=
  .obj [("choices", .arr [.obj [("message", .obj [("content", .str "")])]])]

/-- A stubbed transport answering every attempt with HTTP 404. -/
def notFoundTr : Nat → FetchOutcome := fun _ => .response 404 (.error "Not Found")

theorem groqAttempts_calls_le (tr : Nat → FetchOutcome) (tm mr : Nat) :
    ∀ r, countCalls (groqAttempts tr tm mr r).2 ≤ r + 1 := by
  intro r
  induction r with
  | zero => simp [groqAttempts, countCalls]
  | succ r ih =>
    simp only [groqAttempts]
    cases runAttempt tm (tr (mr - (r + 1))) with
    | ok data => simp [countCalls]
    | groqFail e =>
      by_cases h : e.retriable = true
      · simp only [h, if_true, countCalls]
        omega
      · simp [h, countCalls]
    | rawFail m => simp [countCalls]

theorem groqAttempts_head (tr : Nat → FetchOutcome) (tm mr : Nat) (r : Nat) :
    ∃ rest, (groqAttempts tr tm mr r).2 = Event.call (mr - r) :: rest := by
  cases r with
  | zero =>
    exact ⟨[], by simp [groqAttempts]⟩
  | succ r =>
    simp only [groqAttempts]
    cases runAttempt tm (tr (mr - (r + 1))) with
    | ok data => exact ⟨[], rfl⟩
    | groqFail e =>
      by_cases h : e.retriable = true
      · exact ⟨Event.sleepMs (backoffMs (mr - (r + 1))) :: (groqAttempts tr tm mr r).2,
          by simp [h]⟩
      · exact ⟨[], by simp [h]⟩
    | rawFail m => exact ⟨[], rfl⟩

theorem groqAttempts_traceOk (tr : Nat → FetchOutcome) (tm mr : Nat) :
    ∀ r, r ≤ mr → traceOk (mr - r) (groqAttempts tr tm mr r).2 = true := by
  intro r
  induction r with
  | zero => intro _; simp [groqAttempts, traceOk]
  | succ r ih =>
    intro hle
    simp only [groqAttempts]
    cases runAttempt tm (tr (mr - (r + 1))) with
    | ok data => simp [traceOk]
    | groqFail e =>
      by_cases h : e.retriable = true
      · simp only [h, if_true]
        obtain ⟨rest, hrest⟩ := groqAttempts_head tr tm mr r
        have hsucc : mr - (r + 1) + 1 = mr - r := by omega
        have htail := ih (by omega)
        rw [hrest] at htail
        simp [traceOk, hrest, hsucc, htail]
      · simp [h, traceOk]
    | rawFail m => simp [traceOk]

theorem groqAttempts_all_retriable (tr : Nat → FetchOutcome) (tm mr : Nat) :
    ∀ r, r ≤ mr →
    (∀ i, i ≤ mr → ∃ e, runAttempt tm (tr i) = .groqFail e ∧ e.retriable = true) →
    countCalls (groqAttempts tr tm mr r).2 = r + 1 ∧
    (∀ e, runAttempt tm (tr mr) = .groqFail e →
      (groqAttempts tr tm mr r).1 = .error e) := by
  intro r
  induction r with
  | zero =>
    intro _ _
    refine ⟨by simp [groqAttempts, countCalls], ?_⟩
    intro e he
    simp [groqAttempts, he]
  | succ r ih =>
    intro hle hall
    obtain ⟨e0, he0, hretr⟩ := hall (mr - (r + 1)) (by omega)
    have ihh := ih (by omega) hall
    constructor
    · simp only [groqAttempts, he0, hretr, if_true, countCalls]
      omega
    · intro e he
      simp only [groqAttempts, he0, hretr, if_true]
      exact ihh.2 e he

theorem runAttempt_config_not_retriable (tm : Nat) (o : FetchOutcome) (e : GroqError)
    (h : runAttempt tm o = .groqFail e) (ht : e.type = .CONFIG) : e.retriable = false := by
  cases o with
  | timedOut =>
    simp only [runAttempt, AttemptResult.groqFail.injEq] at h
    rw [← h] at ht
    simp [timeoutError] at ht
  | netFailure m =>
    simp only [runAttempt, AttemptResult.groqFail.injEq] at h
    rw [← h] at ht
    simp [networkError] at ht
  | response s b =>
    simp only [runAttempt] at h
    by_cases hok : resOk s = true
    · rw [if_pos hok] at h
      cases b with
      | error m => simp at h
      | ok data =>
        by_cases hshape : hasValidShape data = true
        · simp [hshape] at h
        · simp only [hshape, if_neg, Bool.false_eq_true, not_false_iff,
            AttemptResult.groqFail.injEq] at h
          rw [← h] at ht
          simp [invalidShapeError] at ht
    · rw [if_neg hok] at h
      simp only [AttemptResult.groqFail.injEq] at h
      rw [← h] at ht ⊢
      unfold classifyHttpError at ht ⊢
      by_cases h1 : s = 401 ∨ s = 403
      · simp [h1]
      · by_cases h2 : s = 429
        · rw [if_neg h1, if_pos h2] at ht
          simp at ht
        · by_cases h3 : 500 ≤ s ∧ s ≤ 599
          · rw [if_neg h1, if_neg h2, if_pos h3] at ht
            simp at ht
          · simp [h1, h2, h3]

/-- C1: for every HTTP status outside the 200-299 success range,
`classifyHttpError` is a total function on the status (this embedding of
part_000 lines 122-160 is a Lean function, hence deterministic and total)
and matches the table: 401/403 give `CONFIG` non-retriable, 429 gives
`RATE_LIMIT` retriable, 500-599 give `UPSTREAM` retriable, and every other
non-success status gives `UPSTREAM` non-retriable. -/
theorem C1_error_classification (s : Nat) (d : Option Json)
    (hns : ¬(200 ≤ s ∧ s ≤ 299)) :
    ((s = 401 ∨ s = 403) →
      (classifyHttpError s d).type = .CONFIG ∧
      (classifyHttpError s d).retriable = false) ∧
    (s = 429 →
      (classifyHttpError s d).type = .RATE_LIMIT ∧
      (classifyHttpError s d).retriable = true) ∧
    (500 ≤ s → s ≤ 599 →
      (classifyHttpError s d).type = .UPSTREAM ∧
      (classifyHttpError s d).retriable = true) ∧
    (s ≠ 401 → s ≠ 403 → s ≠ 429 → ¬(500 ≤ s ∧ s ≤ 599) →
      (classifyHttpError s d).type = .UPSTREAM ∧
      (classifyHttpError s d).retriable = false) := by
  refine ⟨?_, ?_, ?_, ?_⟩
  · intro h
    simp [classifyHttpError, h]
  · intro h
    subst h
    simp [classifyHttpError]
  · intro h5 h6
    have h1 : ¬(s = 401 ∨ s = 403) := by omega
    have h2 : ¬(s = 429) := by omega
    simp [classifyHttpError, h1, h2, h5, h6]
  · intro hne1 hne2 hne3 hno5
    have h1 : ¬(s = 401 ∨ s = 403) := by omega
    simp [classifyHttpError, h1, hne3, hno5]

/-- Witness for C1 at the concrete non-success status 404. -/
theorem C1_error_classification_witness :
    (classifyHttpError 404 none).type = .UPSTREAM ∧
    (classifyHttpError 404 none).retriable = false :=
  (C1_error_classification 404 none (by decide)).2.2.2
    (by decide) (by decide) (by decide) (by decide)

/-- C2: `createGroqChatCompletion` makes at most `maxRetries + 1` upstream
calls for every credential, budget and transport; and with
`maxRetries = 2` and a transport whose every attempt fails with a
retriable-classified error, exactly 3 upstream calls are made and the
error surfaced to the caller is exactly the error classified on the last
attempt (attempt index 2). -/
theorem C2_retry_bound :
    (∀ req apiKey tm mr tr,
      countCalls (createGroqChatCompletion req apiKey tm mr tr).2 ≤ mr + 1) ∧
    (∀ req k tm tr,
      (∀ i, i ≤ 2 → ∃ e, runAttempt tm (tr i) = .groqFail e ∧ e.retriable = true) →
      countCalls (createGroqChatCompletion req (some k) tm 2 tr).2 = 3 ∧
      ∀ e, runAttempt tm (tr 2) = .groqFail e →
        (createGroqChatCompletion req (some k) tm 2 tr).1 = .error e) := by
  constructor
  · intro req apiKey tm mr tr
    cases apiKey with
    | none => simp [createGroqChatCompletion, countCalls]
    | some k =>
      simpa [createGroqChatCompletion] using groqAttempts_calls_le tr tm mr mr
  · intro req k tm tr hall
    have h := groqAttempts_all_retriable tr tm 2 2 (le_refl 2) hall
    exact ⟨by simpa [createGroqChatCompletion] using h.1,
      fun e he => by simpa [createGroqChatCompletion] using h.2 e he⟩

/-- Witness for C2: an always-timing-out transport with `maxRetries = 2`
is called exactly 3 times and surfaces the timeout error classified on the
last attempt. -/
theorem C2_retry_bound_witness :
    countCalls (createGroqChatCompletion (answerRequest "p") (some "k") 12000 2
      (fun _ => .timedOut)).2 = 3 ∧
    (createGroqChatCompletion (answerRequest "p") (some "k") 12000 2
      (fun _ => .timedOut)).1 = .error (timeoutError 12000) := by
  have h := C2_retry_bound.2 (answerRequest "p") "k" 12000 (fun _ => .timedOut)
    (fun i _ => ⟨timeoutError 12000, rfl, rfl⟩)
  exact ⟨h.1, h.2 (timeoutError 12000) rfl⟩

/-- C3: the backoff slept after failed attempt `i` is 250ms for `i = 0`,
500ms for `i = 1`, and 1000ms (the last schedule entry, clamped) for every
`i ≥ 2`; and in every run of the transport client the trace is well
formed: each sleep sits strictly between two consecutive attempts, lasts
the scheduled duration of the attempt that just failed, and no sleep
follows the final attempt. -/
theorem C3_backoff_schedule (i : Nat) (h2 : 2 ≤ i) (req : CompletionRequest)
    (apiKey : Option String) (tm mr : Nat) (tr : Nat → FetchOutcome) :
    backoffMs 0 = 250 ∧ backoffMs 1 = 500 ∧ backoffMs i = 1000 ∧
    traceOk 0 (createGroqChatCompletion req apiKey tm mr tr).2 = true := by
  refine ⟨rfl, rfl, ?_, ?_⟩
  · have hmin : min i 2 = 2 := by omega
    simp [backoffMs, RETRY_BACKOFF_MS, hmin]
  · cases apiKey with
    | none => simp [createGroqChatCompletion, traceOk]
    | some k =>
      have h := groqAttempts_traceOk tr tm mr mr (le_refl mr)
      simpa [createGroqChatCompletion, Nat.sub_self] using h

/-- Witness for C3 at `i = 5` and a concrete always-failing transport. -/
theorem C3_backoff_schedule_witness :
    backoffMs 0 = 250 ∧ backoffMs 1 = 500 ∧ backoffMs 5 = 1000 ∧
    traceOk 0 (createGroqChatCompletion (answerRequest "p") (some "k") 12000 2
      (fun _ => .timedOut)).2 = true :=
  C3_backoff_schedule 5 (by decide) (answerRequest "p") (some "k") 12000 2
    (fun _ => .timedOut)

/-- C4: with no configured credential, `generateGroqResponse` fails with
the `CONFIG` non-retriable error and its trace is empty (no network call
is attempted); more generally, for every retry budget, a `CONFIG`-classified
failure on the first attempt surfaces immediately with exactly one
upstream call and no backoff sleep (a `CONFIG` classification is never
retriable, so it is never retried). -/
theorem C4_config_no_retry :
    (∀ tr prompt,
      generateGroqResponse none tr prompt = (.error configMissingError, []) ∧
      configMissingError.type = .CONFIG ∧
      configMissingError.retriable = false) ∧
    (∀ req k tm mr tr e,
      runAttempt tm (tr 0) = .groqFail e → e.type = .CONFIG →
      createGroqChatCompletion req (some k) tm mr tr = (.error e, [.call 0])) := by
  constructor
  · intro tr prompt
    exact ⟨rfl, rfl, rfl⟩
  · intro req k tm mr tr e he ht
    have hr : e.retriable = false := runAttempt_config_not_retriable tm (tr 0) e he ht
    cases mr with
    | zero =>
      simp [createGroqChatCompletion, groqAttempts, he]
    | succ r =>
      simp [createGroqChatCompletion, groqAttempts, Nat.sub_self, he, hr]

/-- Witness for C4: an HTTP 401 on the first attempt with a generous
budget of 5 retries still results in a single call and no sleep. -/
theorem C4_config_no_retry_witness :
    createGroqChatCompletion (answerRequest "p") (some "k") 12000 5
      (fun _ => .response 401 (.ok .null)) =
      (.error (classifyHttpError 401 (some .null)), [.call 0]) :=
  C4_config_no_retry.2 (answerRequest "p") "k" 12000 5
    (fun _ => .response 401 (.ok .null)) (classifyHttpError 401 (some .null)) rfl rfl

/-- C5 counterexample: a completion whose first choice's content is a
single space is empty after trimming, yet `generateGroqResponse` does not
fail with `INVALID_RESPONSE` — the falsy check `!text` runs before
trimming, so the call returns `.ok ""`, an empty string result. -/
theorem C5_counterexample :
    extractContent wsContentData = some " " ∧
    trimString " " = "" ∧
    (generateGroqResponse (some "k") (fun _ => .response 200 (.ok wsContentData))
      "p").1 = .ok "" :=
  ⟨rfl, rfl, rfl⟩

/-- C5 amended: for every successfully returned completion body, the
orchestrator fails with a non-retriable `INVALID_RESPONSE` error exactly
when the extracted content is absent or is the empty string before
trimming; content that is non-empty (even if only whitespace) passes the
check and the trimmed text — possibly empty — is returned. -/
theorem C5_empty_content (k : String) (tr : Nat → FetchOutcome) (prompt : String)
    (data : Json) (evs : List Event)
    (h : createGroqChatCompletion (answerRequest prompt) (some k)
      DEFAULT_TIMEOUT_MS DEFAULT_MAX_RETRIES tr = (.ok data, evs)) :
    ((extractContent data).getD "" = "" →
      ∃ e, (generateGroqResponse (some k) tr prompt).1 = .error e ∧
        e.type = .INVALID_RESPONSE ∧ e.retriable = false) ∧
    (∀ s, extractContent data = some s → s ≠ "" →
      (generateGroqResponse (some k) tr prompt).1 = .ok (trimString s)) := by
  constructor
  · intro hempty
    refine ⟨emptyResponseError data, ?_, rfl, rfl⟩
    unfold generateGroqResponse
    rw [h]
    simp [hempty]
  · intro s hs hne
    unfold generateGroqResponse
    rw [h]
    simp [hs, hne]

/-- Witness for C5 amended: a stubbed transport returning content `""`
yields the non-retriable `INVALID_RESPONSE` failure. -/
theorem C5_empty_content_witness :
    ∃ e, (generateGroqResponse (some "k")
      (fun _ => .response 200 (.ok emptyContentData)) "p").1 = .error e ∧
      e.type = .INVALID_RESPONSE ∧ e.retriable = false :=
  (C5_empty_content "k" (fun _ => .response 200 (.ok emptyContentData)) "p"
    emptyContentData [.call 0] rfl).1 rfl

/-- C6 counterexample: on the spec's own end-to-end input the final text
is not `"Bitcoin is •digital gold"` — the single-emphasis markers around
`digital` each become a bullet, so a second bullet survives after
`digital`. -/
theorem C6_counterexample :
    (routePOST (some "What is Bitcoin?") (some "k") bitcoinTr).1.2 ≠
      .response "Bitcoin is •digital gold" := by
  decide

/-- C6 amended: the end-to-end run for prompt `"What is Bitcoin?"` with
the stubbed transport returning content `"Bitcoin is *digital* **gold**"`
answers HTTP 200 with final text `"Bitcoin is •digital• gold"` (the `**`
pairs collapse to nothing, each remaining `*` becomes `•`, and the result
is trimmed). -/
theorem C6_end_to_end :
    (routePOST (some "What is Bitcoin?") (some "k") bitcoinTr).1 =
      (200, .response "Bitcoin is •digital• gold") :=
  rfl

/-- C7: the route returns 400 when the `message` field is absent;
otherwise it invokes the orchestrator and, on failure, answers 503 exactly
when the surfaced error's kind is `RATE_LIMIT`, `TIMEOUT` or `UPSTREAM`
and 500 for every other failure, preserving the error's message text in
the body; on success it answers 200 with the cleaned text. -/
theorem C7_route_status_mapping (apiKey : Option String) (tr : Nat → FetchOutcome) :
    routePOST none apiKey tr = ((400, .error "Message is required"), []) ∧
    (∀ m, m ≠ "" → ∀ e evs,
      generateGroqResponse apiKey tr (chatPrompt m) = (.error e, evs) →
      (routePOST (some m) apiKey tr).1.1 =
        (if e.type = .RATE_LIMIT ∨ e.type = .TIMEOUT ∨ e.type = .UPSTREAM
          then 503 else 500) ∧
      (routePOST (some m) apiKey tr).1.2 = .error e.message) ∧
    (∀ m, m ≠ "" → ∀ r evs,
      generateGroqResponse apiKey tr (chatPrompt m) = (.ok r, evs) →
      (routePOST (some m) apiKey tr).1 = (200, .response (cleanResponse r))) := by
  refine ⟨rfl, ?_, ?_⟩
  · intro m hm e evs h
    simp only [routePOST]
    rw [if_neg hm, h]
    exact ⟨rfl, rfl⟩
  · intro m hm r evs h
    simp only [routePOST]
    rw [if_neg hm, h]

/-- Witness for C7: with no credential configured, the surfaced `CONFIG`
failure maps to 500 and the message text is preserved. -/
theorem C7_route_status_mapping_witness :
    (routePOST (some "hi") none (fun _ => .timedOut)).1.1 = 500 ∧
    (routePOST (some "hi") none (fun _ => .timedOut)).1.2 =
      .error "GROQ_API_KEY is not configured" := by
  have h := (C7_route_status_mapping none (fun _ => .timedOut)).2.1 "hi"
    (by decide) configMissingError [] rfl
  exact ⟨by simpa [configMissingError] using h.1, h.2⟩

/-- C8 counterexample: the boundary's 503 does not coincide with
`retriable = true`.  A persistent HTTP 404 surfaces the non-retriable
`UPSTREAM` classification, yet the route answers 503 — so "503 if and
only if retriable" fails in the only-if direction. -/
theorem C8_counterexample :
    (generateGroqResponse (some "k") notFoundTr (chatPrompt "hi")).1 =
      .error (classifyHttpError 404 none) ∧
    (classifyHttpError 404 none).retriable = false ∧
    (routePOST (some "hi") (some "k") notFoundTr).1.1 = 503 :=
  ⟨rfl, rfl, rfl⟩

/-- C8 amended: the boundary translates a failure to 503 exactly when its
kind is `RATE_LIMIT`, `TIMEOUT` or `UPSTREAM`, independently of the
retriable flag — in particular the retriable `NETWORK` kind maps to 500
while the non-retriable `UPSTREAM` classification of a 404 maps to 503 —
and every other failure maps to 500. -/
theorem C8_status_by_kind (e : GroqError) :
    (errorStatus e = 503 ↔
      (e.type = .RATE_LIMIT ∨ e.type = .TIMEOUT ∨ e.type = .UPSTREAM)) ∧
    (errorStatus e = 503 ∨ errorStatus e = 500) ∧
    (errorStatus (networkError "connection reset") = 500 ∧
      (networkError "connection reset").retriable = true) ∧
    (errorStatus (classifyHttpError 404 none) = 503 ∧
      (classifyHttpError 404 none).retriable = false) := by
  refine ⟨?_, ?_, ⟨rfl, rfl⟩, ⟨rfl, rfl⟩⟩
  · unfold errorStatus
    split_ifs with h
    · simp [h]
    · simp [h]
  · unfold errorStatus
    split_ifs with h
    · exact Or.inl rfl
    · exact Or.inr rfl

/-- Witness for C8 amended, at the concrete rate-limit classification. -/
theorem C8_status_by_kind_witness :
    errorStatus (classifyHttpError 429 none) = 503 :=
  (C8_status_by_kind (classifyHttpError 429 none)).1.mpr (Or.inl rfl)

/-- C9: at each of the seven `GroqError` construction sites of the program
(`getApiKey`, the two `fetchWithTimeout` failure paths, `classifyHttpError`,
the invalid-shape and `UNKNOWN` paths of `createGroqChatCompletion`, and
the empty-answer path of `generateGroqResponse`), the retriable flag the
code sets equals the pure function of kind and status given by the spec's
§4.1 table: `CONFIG`, `INVALID_RESPONSE` and `UNKNOWN` are never
retriable; `TIMEOUT`, `NETWORK` and `RATE_LIMIT` always are; `UPSTREAM` is
retriable exactly when its status lies in 500-599. -/
theorem C9_retriable_is_pure (tm s : Nat) (m : String) (d : Option Json) (j : Json) :
    configMissingError.retriable =
      specRetriablePolicy configMissingError.type configMissingError.status ∧
    (timeoutError tm).retriable =
      specRetriablePolicy (timeoutError tm).type (timeoutError tm).status ∧
    (networkError m).retriable =
      specRetriablePolicy (networkError m).type (networkError m).status ∧
    (classifyHttpError s d).retriable =
      specRetriablePolicy (classifyHttpError s d).type (classifyHttpError s d).status ∧
    (invalidShapeError j).retriable =
      specRetriablePolicy (invalidShapeError j).type (invalidShapeError j).status ∧
    (unknownError m).retriable =
      specRetriablePolicy (unknownError m).type (unknownError m).status ∧
    (emptyResponseError j).retriable =
      specRetriablePolicy (emptyResponseError j).type (emptyResponseError j).status := by
  refine ⟨rfl, rfl, rfl, ?_, rfl, rfl, rfl⟩
  unfold classifyHttpError
  by_cases h1 : s = 401 ∨ s = 403
  · simp [h1, specRetriablePolicy]
  · by_cases h2 : s = 429
    · simp [h1, h2, specRetriablePolicy]
    · by_cases h3 : 500 ≤ s ∧ s ≤ 599
      · simp [h1, h2, h3, specRetriablePolicy]
      · simp [h1, h2, h3, specRetriablePolicy]

/-- C10: a present-but-empty `message` field is rejected by the falsy
check exactly like an absent one: same 400 status, same error body, and
the orchestrator is never invoked (the trace holds no upstream call). -/
theorem C10_empty_message_rejected (apiKey : Option String) (tr : Nat → FetchOutcome) :
    routePOST (some "") apiKey tr = ((400, .error "Message is required"), []) ∧
    routePOST (some "") apiKey tr = routePOST none apiKey tr ∧
    countCalls (routePOST (some "") apiKey tr).2 = 0 :=
  ⟨rfl, rfl, rfl⟩
